import Mathlib

/-!
Verification of the avatar-upload ingestion logic of the Flask workshop
repository.  The embedded functions follow the Python sources:

* `allowed_file`, `upload_file` — `Workshop3/Example/Example5/utils/funcs.py`
  (the same inline logic appears in `Workshop4/Example/Example3/routes/profile.py`);
* `verify_and_save_avatar` — `Workshop5/Example/Example3/utils.py`;
* `secure_filename` — third-party `werkzeug.utils.secure_filename` (POSIX
  behaviour), which the sources call;
* `magicSniff` — third-party libmagic (`magic.from_buffer(.., mime=True)`)
  restricted to the signatures relevant here;
* `uuid4hex` — Python `uuid.uuid4().hex`: 16 random bytes with the version
  nibble forced to 4 and the variant nibble forced into 8..b.

Filenames are `List Char`, byte payloads are `List Nat`, and the filesystem
is an explicit state: a set of directories and an association list from
paths to contents whose head entry shadows older ones (so prepending an
entry for an existing path models an overwrite).
-/

/-- Whitespace recognised by Python `str.split()` (ASCII fragment). -/
def isWS (c : Char) : Bool :=
  c == ' ' || c == '\t' || c == '\n' || c == '\r' || c.toNat == 11 || c.toNat == 12

/-- Characters kept by werkzeug's `_filename_ascii_strip_re`: `[A-Za-z0-9_.-]`. -/
def isSafeChar (c : Char) : Bool :=
  (decide ('A' ≤ c) && decide (c ≤ 'Z')) ||
  (decide ('a' ≤ c) && decide (c ≤ 'z')) ||
  (decide ('0' ≤ c) && decide (c ≤ '9')) ||
  c == '_' || c == '.' || c == '-'

/-- Drop leading `.` and `_` characters, as Python `str.strip("._")` does on one side. -/
def dropDU (l : List Char) : List Char :=
  l.dropWhile (fun c => c == '.' || c == '_')

/-- Python `str.strip("._")`: drop `.` and `_` from both ends. -/
def stripDU (l : List Char) : List Char :=
  ((dropDU l).reverse.dropWhile (fun c => c == '.' || c == '_')).reverse

/-- werkzeug `secure_filename` on POSIX (`os.sep = '/'`, no altsep, not Windows):
NFKD-normalise and keep ASCII (modelled as keeping ASCII characters), replace
the path separator by a space, split on whitespace and re-join with `_`,
delete every character outside `[A-Za-z0-9_.-]`, and strip `.`/`_` from both
ends.  Third-party code called by all three upload sources. -/
def secure_filename (filename : List Char) : List Char :=
  let ascii := filename.filter (fun c => decide (c.toNat < 128))
  let noSep := ascii.map (fun c => if c = '/' then ' ' else c)
  let words := (noSep.splitOnP isWS).filter (fun w => !w.isEmpty)
  stripDU ((List.intercalate ['_'] words).filter isSafeChar)

/-- ASCII lowercasing, modelling Python `str.lower` on the ASCII letters that
the extension comparison involves. -/
def asciiLower (c : Char) : Char :=
  if 'A' ≤ c ∧ c ≤ 'Z' then Char.ofNat (c.toNat + 32) else c

/-- Python `filename.rsplit('.', 1)[1]` guarded by `'.' in filename`: the
substring after the final dot, or `none` when the name has no dot. -/
def afterLastDot : List Char → Option (List Char)
  | [] => none
  | c :: rest =>
    match afterLastDot rest with
    | some s => some s
    | none => if c = '.' then some rest else none

/-- `ALLOWED_EXTENSIONS = {'png', 'jpg', 'jpeg', 'gif'}` from both utils files. -/
def ALLOWED_EXTENSIONS : List (List Char) :=
  [['p','n','g'], ['j','p','g'], ['j','p','e','g'], ['g','i','f']]

/-- `allowed_file` from `Workshop3/Example/Example5/utils/funcs.py` and
`Workshop5/Example/Example3/utils.py`:
`'.' in filename and filename.rsplit('.', 1)[1].lower() in ALLOWED_EXTENSIONS`. -/
def allowed_file (filename : List Char) : Bool :=
  match afterLastDot filename with
  | none => false
  | some ext => decide (ext.map asciiLower ∈ ALLOWED_EXTENSIONS)

/-- `ALLOWED_MIME_TYPES = {'image/png', 'image/jpeg', 'image/gif'}`. -/
def ALLOWED_MIME_TYPES : List String :=
  ["image/png", "image/jpeg", "image/gif"]

/-- `sig` is an initial run of `b`. -/
def hasMagic : List Nat → List Nat → Bool
  | [], _ => true
  | _ :: _, [] => false
  | s :: ss, x :: xs => s == x && hasMagic ss xs

/-- PNG signature `\x89PNG\r\n\x1a\n`. -/
def pngSig : List Nat := [137, 80, 78, 71, 13, 10, 26, 10]

/-- JPEG signature `\xff\xd8\xff`. -/
def jpegSig : List Nat := [255, 216, 255]

/-- GIF signature `GIF87a`. -/
def gif87Sig : List Nat := [71, 73, 70, 56, 55, 97]

/-- GIF signature `GIF89a`. -/
def gif89Sig : List Nat := [71, 73, 70, 56, 57, 97]

/-- libmagic `magic.from_buffer(buf, mime=True)` restricted to the formats the
sources care about: the three allowed image signatures, `application/x-empty`
for an empty buffer, and a catch-all for everything else.  libmagic reports an
allowed image type exactly when the corresponding signature leads the buffer. -/
def magicSniff (b : List Nat) : String :=
  if hasMagic pngSig b then "image/png"
  else if hasMagic jpegSig b then "image/jpeg"
  else if hasMagic gif87Sig b || hasMagic gif89Sig b then "image/gif"
  else if b.isEmpty then "application/x-empty"
  else "application/octet-stream"

/-- Lower-case hex digit of a nibble, as in Python's `%x` formatting. -/
def hexDigit (n : Fin 16) : Char :=
  if n.val < 10 then Char.ofNat (48 + n.val) else Char.ofNat (87 + n.val)

/-- Nibble `i` of `uuid.uuid4()` built from the 32 random nibbles `r`:
nibble 12 is the version (always 4) and the high two bits of nibble 16 are the
variant (10), leaving 122 random bits of the original 128. -/
def uuid4Nibble (r : Fin 32 → Fin 16) (i : Fin 32) : Fin 16 :=
  if i = (12 : Fin 32) then (4 : Fin 16)
  else if i = (16 : Fin 32) then ⟨8 + (r i).val % 4, by omega⟩
  else r i

/-- `uuid.uuid4().hex`: the 32 lower-case hex characters of a version-4 UUID
generated from the 128 random bits `r`. -/
def uuid4hex (r : Fin 32 → Fin 16) : List Char :=
  (List.finRange 32).map (fun i => hexDigit (uuid4Nibble r i))

/-- Filesystem state: existing directories and an association list of files;
`lookupFile` reads the first matching entry, so prepending shadows (models an
in-place overwrite by `save`). -/
structure FS where
  dirs : List (List Char)
  files : List (List Char × List Nat)
deriving DecidableEq

/-- First entry for path `p`, if any. -/
def lookupFile : List (List Char × List Nat) → List Char → Option (List Nat)
  | [], _ => none
  | e :: rest, p => if e.1 = p then some e.2 else lookupFile rest p

/-- Content stored at path `p`. -/
def FS.read (fs : FS) (p : List Char) : Option (List Nat) :=
  lookupFile fs.files p

/-- `file.save(path)`: (over)write `content` at `p`. -/
def saveFile (p : List Char) (content : List Nat) (fs : FS) : FS :=
  { fs with files := (p, content) :: fs.files }

/-- `Path.mkdir(parents=True, exist_ok=True)`: create the directory if absent,
silently succeed if it already exists. -/
def mkdirExistOk (d : List Char) (fs : FS) : FS :=
  if d ∈ fs.dirs then fs else { fs with dirs := d :: fs.dirs }

/-- `UPLOAD_DIR = Path('./uploads/avatars')`, whose string form is
`uploads/avatars`. -/
def UPLOAD_DIR : List Char := "uploads/avatars".toList

/-- The module-level `UPLOAD_DIR.mkdir(parents=True, exist_ok=True)` executed
at import time, before any upload call can run. -/
def moduleInit (fs : FS) : FS := mkdirExistOk UPLOAD_DIR fs

/-- `f"{uuid.uuid4().hex}_{secure_filename(name)}"` with the freshly drawn
token passed explicitly. -/
def stored_filename (token orig : List Char) : List Char :=
  token ++ '_' :: secure_filename orig

/-- `upload_file` from `Workshop3/Example/Example5/utils/funcs.py` (same logic
inline in `Workshop4/Example/Example3/routes/profile.py`): reject when
`allowed_file` fails, sniff the first 1024 bytes and reject when the MIME type
is not allowed (both rejections return `(False, '')`), otherwise save the full
content (the source does `file.seek(0)` before `save`) under
`UPLOAD_DIR / f"{uuid4().hex}_{secure_filename(name)}"` and return
`(True, filename)`.  The sniffing oracle and the random token are parameters. -/
def upload_file (sniff : List Nat → String) (token origName : List Char)
    (content : List Nat) (fs : FS) : (Bool × List Char) × FS :=
  if ¬ allowed_file origName then ((false, []), fs)
  else if sniff (content.take 1024) ∉ ALLOWED_MIME_TYPES then ((false, []), fs)
  else
    let fname := stored_filename token origName
    ((true, fname), saveFile (UPLOAD_DIR ++ '/' :: fname) content fs)

/-- `verify_and_save_avatar` from `Workshop5/Example/Example3/utils.py`: reject
with `(False, "aa")` when `allowed_file` fails; otherwise — with no content
sniffing — save under `os.path.join(UPLOAD_DIR, filename)` and return
`(True, avatar_path)` (the full path, not the bare filename). -/
def verify_and_save_avatar (token origName : List Char)
    (content : List Nat) (fs : FS) : (Bool × List Char) × FS :=
  if ¬ allowed_file origName then ((false, "aa".toList), fs)
  else
    let fname := stored_filename token origName
    let avatarPath := UPLOAD_DIR ++ '/' :: fname
    ((true, avatarPath), saveFile avatarPath content fs)

/-- Outcome of the underlying file write: success, or an I/O failure after
`k` bytes have already been streamed to the destination. -/
inductive WriteOutcome where
  | ok : WriteOutcome
  | failAfter : Nat → WriteOutcome
deriving DecidableEq

/-- werkzeug `FileStorage.save` streams chunks directly into the destination
path (no temporary file, no rename): on an I/O failure after `k` bytes the
truncated file is left visible at the final path. -/
def streamWrite (p : List Char) (content : List Nat) :
    WriteOutcome → FS → Bool × FS
  | .ok, fs => (true, saveFile p content fs)
  | .failAfter k, fs => (false, saveFile p (content.take k) fs)

/-- Result of `upload_file` when the write may fail: the value returned, or a
propagated exception (`ioError`) — the source wraps `file.save` in no
try/except. -/
inductive UploadOutcome where
  | rejected : UploadOutcome
  | saved : List Char → UploadOutcome
  | ioError : UploadOutcome
deriving DecidableEq

/-- `upload_file` with the write outcome made explicit, for the atomicity
analysis: identical to `upload_file` except that `file.save` is `streamWrite`. -/
def upload_file_io (sniff : List Nat → String) (token origName : List Char)
    (content : List Nat) (w : WriteOutcome) (fs : FS) : UploadOutcome × FS :=
  if ¬ allowed_file origName then (.rejected, fs)
  else if sniff (content.take 1024) ∉ ALLOWED_MIME_TYPES then (.rejected, fs)
  else
    let fname := stored_filename token origName
    match streamWrite (UPLOAD_DIR ++ '/' :: fname) content w fs with
    | (true, fs2) => (.saved fname, fs2)
    | (false, fs2) => (.ioError, fs2)

/-- `l` contains two consecutive dots. -/
def containsDD : List Char → Bool
  | [] => false
  | [_] => false
  | a :: b :: rest => (a == '.' && b == '.') || containsDD (b :: rest)

/-- Lower-case hex character. -/
def isHexChar (c : Char) : Bool :=
  (decide ('0' ≤ c) && decide (c ≤ '9')) || (decide ('a' ≤ c) && decide (c ≤ 'f'))

/-- A PNG payload: the PNG signature followed by a few bytes. -/
def pngBytes : List Nat := [137, 80, 78, 71, 13, 10, 26, 10, 0, 0, 0, 13]

/-- A second, different PNG payload. -/
def pngBytes2 : List Nat := [137, 80, 78, 71, 13, 10, 26, 10, 1, 2, 3]

/-- The ASCII bytes of `hello`: a text payload with no image signature. -/
def textBytes : List Nat := [104, 101, 108, 108, 111]

/-- The empty filesystem. -/
def emptyFS : FS := ⟨[], []⟩

/-- All-zero randomness for `uuid4hex`. -/
def rZero : Fin 32 → Fin 16 := fun _ => 0

/-- Randomness differing from `rZero` only in the nibble that `uuid4` forces
to the version 4. -/
def rAlt : Fin 32 → Fin 16 := fun i => if i = (12 : Fin 32) then 5 else 0

/-- Randomness producing a token distinct from `uuid4hex rZero`. -/
def rOne : Fin 32 → Fin 16 := fun _ => 1

/-- Concrete token: `uuid4hex rZero`. -/
def tok0 : List Char := uuid4hex rZero

/-- Concrete token distinct from `tok0`. -/
def tok1 : List Char := uuid4hex rOne


/-- Helper: a name with no dot, or whose lower-cased final extension is not in
the allowed set, fails `allowed_file`. -/
theorem allowed_file_eq_false (name : List Char)
    (h : afterLastDot name = none ∨
      ∃ e, afterLastDot name = some e ∧ e.map asciiLower ∉ ALLOWED_EXTENSIONS) :
    allowed_file name = false := by
  unfold allowed_file
  rcases h with h | ⟨e, he, hmem⟩
  · rw [h]
  · rw [he]
    exact decide_eq_false hmem

/-- C1 (amended): `upload_file` does reject any payload whose sniffed MIME type
is outside the allowed set, returning the generic failure `(False, '')` and
leaving the filesystem unchanged, whatever the claimed filename. -/
theorem C1_upload_rejects_spoof (sniff : List Nat → String) (token name : List Char)
    (content : List Nat) (fs : FS)
    (h : sniff (content.take 1024) ∉ ALLOWED_MIME_TYPES) :
    (upload_file sniff token name content fs).1.1 = false ∧
    (upload_file sniff token name content fs).2 = fs := by
  unfold upload_file
  by_cases ha : allowed_file name
  · simp [ha, h]
  · simp [ha]

/-- C1 witness: a `.png`-named text payload is rejected by `upload_file` with
no write. -/
theorem C1_upload_rejects_spoof_witness :
    magicSniff (textBytes.take 1024) ∉ ALLOWED_MIME_TYPES ∧
    ((upload_file magicSniff tok0 ("a.png".toList) textBytes emptyFS).1.1 = false ∧
     (upload_file magicSniff tok0 ("a.png".toList) textBytes emptyFS).2 = emptyFS) :=
  ⟨by decide, C1_upload_rejects_spoof magicSniff tok0 ("a.png".toList) textBytes emptyFS (by decide)⟩

/-- C1 counterexample: `verify_and_save_avatar` (Workshop5) performs no content
sniffing — a `.png`-named text payload whose sniffed type is not an allowed
image is nevertheless accepted and written to disk. -/
theorem C1_counterexample :
    magicSniff (textBytes.take 1024) ∉ ALLOWED_MIME_TYPES ∧
    (verify_and_save_avatar tok0 ("a.png".toList) textBytes emptyFS).1.1 = true ∧
    FS.read (verify_and_save_avatar tok0 ("a.png".toList) textBytes emptyFS).2
      (UPLOAD_DIR ++ '/' :: stored_filename tok0 ("a.png".toList)) = some textBytes := by
  decide

/-- C2: a name with no `.`-separated extension, or whose final extension
(lower-cased) is not in the allowed set, is rejected by both implementations
before any I/O, with the filesystem unchanged. -/
theorem C2_unsupported_extension (sniff : List Nat → String) (token name : List Char)
    (content : List Nat) (fs : FS)
    (h : afterLastDot name = none ∨
      ∃ e, afterLastDot name = some e ∧ e.map asciiLower ∉ ALLOWED_EXTENSIONS) :
    upload_file sniff token name content fs = ((false, []), fs) ∧
    verify_and_save_avatar token name content fs = ((false, "aa".toList), fs) := by
  have hf := allowed_file_eq_false name h
  constructor <;> simp [upload_file, verify_and_save_avatar, hf]

/-- C2 witness: `malware.exe` is rejected by both implementations with no
filesystem write. -/
theorem C2_unsupported_extension_witness :
    (afterLastDot ("malware.exe".toList) = none ∨
      ∃ e, afterLastDot ("malware.exe".toList) = some e ∧
        e.map asciiLower ∉ ALLOWED_EXTENSIONS) ∧
    (upload_file magicSniff tok0 ("malware.exe".toList) textBytes emptyFS = ((false, []), emptyFS) ∧
     verify_and_save_avatar tok0 ("malware.exe".toList) textBytes emptyFS = ((false, "aa".toList), emptyFS)) :=
  ⟨Or.inr ⟨['e','x','e'], by decide, by decide⟩,
   C2_unsupported_extension magicSniff tok0 ("malware.exe".toList) textBytes emptyFS
     (Or.inr ⟨['e','x','e'], by decide, by decide⟩)⟩

/-- C7 counterexample: two distinct failure conditions — unsupported extension
(`x.txt` with PNG bytes) and content mismatch (`x.png` with text bytes) —
produce exactly the same result value `(False, '')` with the filesystem
unchanged, so a caller cannot tell the failure kinds apart. -/
theorem C7_counterexample :
    allowed_file ("x.txt".toList) = false ∧
    (allowed_file ("x.png".toList) = true ∧
     magicSniff (textBytes.take 1024) ∉ ALLOWED_MIME_TYPES) ∧
    upload_file magicSniff tok0 ("x.txt".toList) pngBytes emptyFS =
      upload_file magicSniff tok0 ("x.png".toList) textBytes emptyFS := by
  decide

/-- C7 (amended): every failing `upload_file` call returns the single generic
value `(False, '')` with the filesystem unchanged — success is distinguishable
from failure, but the individual failure kinds are not. -/
theorem C7_amended (sniff : List Nat → String) (token name : List Char)
    (content : List Nat) (fs : FS)
    (h : (upload_file sniff token name content fs).1.1 = false) :
    upload_file sniff token name content fs = ((false, []), fs) := by
  unfold upload_file at h ⊢
  by_cases ha : allowed_file name
  · by_cases hm : sniff (content.take 1024) ∉ ALLOWED_MIME_TYPES
    · simp [ha, hm]
    · simp [ha, hm] at h
  · simp [ha]

/-- C7 witness: a failing call (unsupported extension) indeed returns
`(False, '')` with no write. -/
theorem C7_amended_witness :
    (upload_file magicSniff tok0 ("x.txt".toList) pngBytes emptyFS).1.1 = false ∧
    upload_file magicSniff tok0 ("x.txt".toList) pngBytes emptyFS = ((false, []), emptyFS) :=
  ⟨by decide, C7_amended magicSniff tok0 ("x.txt".toList) pngBytes emptyFS (by decide)⟩

/-- C8 counterexample: `verify_and_save_avatar` (Workshop5) accepts an empty
payload with an allowed extension, reports success and writes an empty file. -/
theorem C8_counterexample :
    allowed_file ("a.png".toList) = true ∧
    (verify_and_save_avatar tok0 ("a.png".toList) [] emptyFS).1.1 = true ∧
    FS.read (verify_and_save_avatar tok0 ("a.png".toList) [] emptyFS).2
      (UPLOAD_DIR ++ '/' :: stored_filename tok0 ("a.png".toList)) = some [] := by
  decide

/-- C8 (amended): `upload_file` rejects an empty payload (libmagic sniffs it as
`application/x-empty`, which is not an allowed type), returning the generic
failure `(False, '')` — not a distinct `EmptyContent` kind — and writes
nothing. -/
theorem C8_amended (token name : List Char) (fs : FS)
    (h : allowed_file name = true) :
    upload_file magicSniff token name [] fs = ((false, []), fs) := by
  have hm : magicSniff ([] : List Nat) ∉ ALLOWED_MIME_TYPES := by decide
  simp [upload_file, h, hm]

/-- C8 witness: the empty payload named `a.png` is rejected by `upload_file`
with no write. -/
theorem C8_amended_witness :
    allowed_file ("a.png".toList) = true ∧
    upload_file magicSniff tok0 ("a.png".toList) [] emptyFS = ((false, []), emptyFS) :=
  ⟨by decide, C8_amended tok0 ("a.png".toList) emptyFS (by decide)⟩

/-- Helper: characters of `stripDU l` come from `l`. -/
theorem mem_stripDU {c : Char} {l : List Char} (h : c ∈ stripDU l) : c ∈ l := by
  unfold stripDU dropDU at h
  have h1 := List.mem_reverse.mp h
  have h2 := List.Sublist.subset (List.dropWhile_sublist _) h1
  have h3 := List.mem_reverse.mp h2
  exact List.Sublist.subset (List.dropWhile_sublist _) h3

/-- Helper: every character of `secure_filename name` lies in werkzeug's safe
set `[A-Za-z0-9_.-]`. -/
theorem mem_secure_filename_safe {c : Char} {name : List Char}
    (h : c ∈ secure_filename name) : isSafeChar c = true := by
  simp only [secure_filename] at h
  exact (List.mem_filter.mp (mem_stripDU h)).2

/-- Helper: every hex digit is a lower-case hex character. -/
theorem hexDigit_hex : ∀ x : Fin 16, isHexChar (hexDigit x) = true := by decide

/-- Helper: no hex digit is a dot. -/
theorem hexDigit_ne_dot : ∀ x : Fin 16, hexDigit x ≠ '.' := by decide

/-- Helper: every character of a `uuid4hex` token is a lower-case hex digit. -/
theorem mem_uuid4hex_hex {c : Char} {r : Fin 32 → Fin 16} (h : c ∈ uuid4hex r) :
    isHexChar c = true := by
  unfold uuid4hex at h
  rcases List.mem_map.mp h with ⟨i, _, rfl⟩
  exact hexDigit_hex _

/-- Helper: the first character of a `uuid4hex` token is its first hex digit. -/
theorem uuid4hex_head (r : Fin 32 → Fin 16) :
    (uuid4hex r).head? = some (hexDigit (uuid4Nibble r ⟨0, by norm_num⟩)) := by
  unfold uuid4hex
  rw [List.head?_map]
  have h0 : (List.finRange 32).head? = some ⟨0, by norm_num⟩ := by decide
  rw [h0]
  rfl

/-- Helper: the head of an append is the head of a nonempty left part. -/
theorem head?_append_left {l l' : List Char} {a : Char} (h : l.head? = some a) :
    (l ++ l').head? = some a := by
  cases l with
  | nil => simp at h
  | cons b t => simp_all

/-- C3 counterexample: for `original_name = "a..b.png"` (allowed extension,
valid PNG bytes) the ingestion succeeds and the stored name still contains the
consecutive-dot sequence `..`, because werkzeug's sanitisation only strips
dots at the ends of the name. -/
theorem C3_counterexample :
    (upload_file magicSniff tok0 ("a..b.png".toList) pngBytes emptyFS).1.1 = true ∧
    containsDD ((upload_file magicSniff tok0 ("a..b.png".toList) pngBytes emptyFS).1.2) = true := by
  decide

/-- C3 (amended): on every successful `upload_file` call the stored name
contains no path separator and does not start with a dot (it starts with a hex
digit of the token), and the file is written exactly at
`UPLOAD_DIR/<stored name>` — strictly inside the destination directory; a
`..` substring may survive sanitisation but carries no separator. -/
theorem C3_amended (sniff : List Nat → String) (r : Fin 32 → Fin 16) (name : List Char)
    (content : List Nat) (fs : FS)
    (h : (upload_file sniff (uuid4hex r) name content fs).1.1 = true) :
    '/' ∉ (upload_file sniff (uuid4hex r) name content fs).1.2 ∧
    ((upload_file sniff (uuid4hex r) name content fs).1.2).head? ≠ some '.' ∧
    (upload_file sniff (uuid4hex r) name content fs).2 =
      saveFile (UPLOAD_DIR ++ '/' :: (upload_file sniff (uuid4hex r) name content fs).1.2)
        content fs := by
  by_cases ha : allowed_file name
  · by_cases hm : sniff (content.take 1024) ∉ ALLOWED_MIME_TYPES
    · simp [upload_file, ha, hm] at h
    · have hres : upload_file sniff (uuid4hex r) name content fs =
          ((true, stored_filename (uuid4hex r) name),
            saveFile (UPLOAD_DIR ++ '/' :: stored_filename (uuid4hex r) name) content fs) := by
        simp [upload_file, ha, hm]
      rw [hres]
      dsimp only
      refine ⟨?_, ?_, rfl⟩
      · intro hmem
        rcases List.mem_append.mp hmem with h1 | h2
        · exact absurd (mem_uuid4hex_hex h1) (by decide)
        · rcases List.mem_cons.mp h2 with h3 | h4
          · exact absurd h3 (by decide)
          · exact absurd (mem_secure_filename_safe h4) (by decide)
      · unfold stored_filename
        rw [head?_append_left (uuid4hex_head r)]
        intro hc
        exact hexDigit_ne_dot _ (Option.some.inj hc)
  · simp [upload_file, ha] at h

/-- C3 witness: ingesting `../../etc/passwd.png` with PNG bytes succeeds and
the stored name has no separator, no leading dot, and lands inside
`UPLOAD_DIR`. -/
theorem C3_amended_witness :
    (upload_file magicSniff (uuid4hex rZero) ("../../etc/passwd.png".toList) pngBytes emptyFS).1.1 = true ∧
    ('/' ∉ (upload_file magicSniff (uuid4hex rZero) ("../../etc/passwd.png".toList) pngBytes emptyFS).1.2 ∧
     ((upload_file magicSniff (uuid4hex rZero) ("../../etc/passwd.png".toList) pngBytes emptyFS).1.2).head? ≠ some '.' ∧
     (upload_file magicSniff (uuid4hex rZero) ("../../etc/passwd.png".toList) pngBytes emptyFS).2 =
       saveFile (UPLOAD_DIR ++ '/' ::
           (upload_file magicSniff (uuid4hex rZero) ("../../etc/passwd.png".toList) pngBytes emptyFS).1.2)
         pngBytes emptyFS) :=
  ⟨by decide,
   C3_amended magicSniff rZero ("../../etc/passwd.png".toList) pngBytes emptyFS (by decide)⟩

/-- Helper: reading any other path is unaffected by a save. -/
theorem read_saveFile_ne {p q : List Char} {c : List Nat} {fs : FS} (h : q ≠ p) :
    FS.read (saveFile p c fs) q = FS.read fs q := by
  show lookupFile ((p, c) :: fs.files) q = lookupFile fs.files q
  simp only [lookupFile]
  rw [if_neg (fun he => h he.symm)]

/-- Helper: reading the saved path returns the saved content. -/
theorem read_saveFile_eq {p : List Char} {c : List Nat} {fs : FS} :
    FS.read (saveFile p c fs) p = some c := by
  show lookupFile ((p, c) :: fs.files) p = some c
  simp [lookupFile]

/-- C4 counterexample: if the random token repeats (a collision), the second
call reuses the same stored name and its `save` overwrites the first file —
the code performs no collision detection and no retry: two successful calls
with identical `original_name` and token produce the same stored name, and
the first payload is lost. -/
theorem C4_counterexample :
    (upload_file magicSniff tok0 ("a.png".toList) pngBytes emptyFS).1.1 = true ∧
    (upload_file magicSniff tok0 ("a.png".toList) pngBytes2
        (upload_file magicSniff tok0 ("a.png".toList) pngBytes emptyFS).2).1.1 = true ∧
    (upload_file magicSniff tok0 ("a.png".toList) pngBytes2
        (upload_file magicSniff tok0 ("a.png".toList) pngBytes emptyFS).2).1.2 =
      (upload_file magicSniff tok0 ("a.png".toList) pngBytes emptyFS).1.2 ∧
    FS.read (upload_file magicSniff tok0 ("a.png".toList) pngBytes emptyFS).2
      (UPLOAD_DIR ++ '/' :: stored_filename tok0 ("a.png".toList)) = some pngBytes ∧
    FS.read (upload_file magicSniff tok0 ("a.png".toList) pngBytes2
        (upload_file magicSniff tok0 ("a.png".toList) pngBytes emptyFS).2).2
      (UPLOAD_DIR ++ '/' :: stored_filename tok0 ("a.png".toList)) = some pngBytes2 ∧
    pngBytes2 ≠ pngBytes := by
  decide

/-- C4 (amended): a call writes only the single path derived from its own
token — every other path reads unchanged, so nothing is deleted and, as long
as the two drawn tokens differ, the two stored names differ and no overwrite
occurs; on a token collision the code overwrites instead of retrying. -/
theorem C4_amended (sniff : List Nat → String) (t1 t2 name : List Char)
    (content : List Nat) (fs : FS) (q : List Char)
    (hne : t1 ≠ t2)
    (hq : q ≠ UPLOAD_DIR ++ '/' :: stored_filename t1 name) :
    stored_filename t1 name ≠ stored_filename t2 name ∧
    FS.read (upload_file sniff t1 name content fs).2 q = FS.read fs q := by
  constructor
  · intro he
    unfold stored_filename at he
    exact hne (List.append_cancel_right he)
  · by_cases ha : allowed_file name
    · by_cases hm : sniff (content.take 1024) ∉ ALLOWED_MIME_TYPES
      · simp [upload_file, ha, hm]
      · have hres : (upload_file sniff t1 name content fs).2 =
            saveFile (UPLOAD_DIR ++ '/' :: stored_filename t1 name) content fs := by
          simp [upload_file, ha, hm]
        rw [hres, read_saveFile_ne hq]
    · simp [upload_file, ha]

/-- C4 witness: with two distinct concrete tokens the stored names differ and
an unrelated path is untouched by the call. -/
theorem C4_amended_witness :
    tok0 ≠ tok1 ∧
    ("other".toList ≠ UPLOAD_DIR ++ '/' :: stored_filename tok0 ("a.png".toList)) ∧
    (stored_filename tok0 ("a.png".toList) ≠ stored_filename tok1 ("a.png".toList) ∧
     FS.read (upload_file magicSniff tok0 ("a.png".toList) pngBytes emptyFS).2 ("other".toList) =
       FS.read emptyFS ("other".toList)) :=
  ⟨by decide, by decide,
   C4_amended magicSniff tok0 tok1 ("a.png".toList) pngBytes emptyFS ("other".toList)
     (by decide) (by decide)⟩

/-- C5 counterexample: the write streams directly to the final path, so when
the I/O fails after 2 bytes the call errors out yet a truncated partial file
is left visible at the destination — the operation is not atomic. -/
theorem C5_counterexample :
    (upload_file_io magicSniff tok0 ("a.png".toList) pngBytes (.failAfter 2) emptyFS).1 =
      .ioError ∧
    FS.read (upload_file_io magicSniff tok0 ("a.png".toList) pngBytes (.failAfter 2) emptyFS).2
      (UPLOAD_DIR ++ '/' :: stored_filename tok0 ("a.png".toList)) = some (pngBytes.take 2) ∧
    pngBytes.take 2 ≠ pngBytes := by
  decide

/-- C5 (amended): every call either is rejected with the filesystem unchanged,
or succeeds with the full content readable at the destination path, or fails
during the write leaving a truncated file at the final name (no temporary
file, no rename — a failed write is visible to the caller). -/
theorem C5_amended (sniff : List Nat → String) (token name : List Char)
    (content : List Nat) (w : WriteOutcome) (fs : FS) :
    ((upload_file_io sniff token name content w fs).1 = .rejected ∧
      (upload_file_io sniff token name content w fs).2 = fs) ∨
    ((upload_file_io sniff token name content w fs).1 = .saved (stored_filename token name) ∧
      FS.read (upload_file_io sniff token name content w fs).2
        (UPLOAD_DIR ++ '/' :: stored_filename token name) = some content) ∨
    (∃ k, (upload_file_io sniff token name content w fs).1 = .ioError ∧
      (upload_file_io sniff token name content w fs).2 =
        saveFile (UPLOAD_DIR ++ '/' :: stored_filename token name) (content.take k) fs) := by
  by_cases ha : allowed_file name
  · by_cases hm : sniff (content.take 1024) ∉ ALLOWED_MIME_TYPES
    · left
      simp [upload_file_io, ha, hm]
    · right
      cases w with
      | ok =>
        left
        constructor
        · simp [upload_file_io, ha, hm, streamWrite]
        · have hres : (upload_file_io sniff token name content .ok fs).2 =
              saveFile (UPLOAD_DIR ++ '/' :: stored_filename token name) content fs := by
            simp [upload_file_io, ha, hm, streamWrite]
          rw [hres, read_saveFile_eq]
      | failAfter k =>
        right
        exact ⟨k, by simp [upload_file_io, ha, hm, streamWrite],
                 by simp [upload_file_io, ha, hm, streamWrite]⟩
  · left
    simp [upload_file_io, ha]

/-- C6 counterexample: `uuid.uuid4().hex` forces the version and variant
nibbles, so two distinct draws of the 128 random bits yield the identical
32-character token — the token carries only 122 bits of entropy, not at
least 128. -/
theorem C6_counterexample :
    rZero ≠ rAlt ∧ uuid4hex rZero = uuid4hex rAlt ∧ (uuid4hex rZero).length = 32 := by
  refine ⟨?_, by decide, by decide⟩
  intro h
  have h12 := congrFun h ⟨12, by norm_num⟩
  simp [rZero, rAlt] at h12

/-- C6 (amended): on success the stored name is
`uuid4().hex ++ "_" ++ secure_filename(original_name)`, the token is 32
lower-case hex characters with nibble 12 pinned to `4` (122 bits of entropy,
not ≥ 128), and the file written at the returned path is byte-identical to
the full uploaded content, including the 1024 bytes consumed for sniffing. -/
theorem C6_amended (sniff : List Nat → String) (r : Fin 32 → Fin 16) (name : List Char)
    (content : List Nat) (fs : FS)
    (h : (upload_file sniff (uuid4hex r) name content fs).1.1 = true) :
    (upload_file sniff (uuid4hex r) name content fs).1.2 =
      uuid4hex r ++ '_' :: secure_filename name ∧
    (uuid4hex r).length = 32 ∧
    (uuid4hex r).all isHexChar = true ∧
    (uuid4hex r).get? 12 = some '4' ∧
    FS.read (upload_file sniff (uuid4hex r) name content fs).2
      (UPLOAD_DIR ++ '/' ::
        (upload_file sniff (uuid4hex r) name content fs).1.2) = some content := by
  by_cases ha : allowed_file name
  · by_cases hm : sniff (content.take 1024) ∉ ALLOWED_MIME_TYPES
    · simp [upload_file, ha, hm] at h
    · have hres : upload_file sniff (uuid4hex r) name content fs =
          ((true, stored_filename (uuid4hex r) name),
            saveFile (UPLOAD_DIR ++ '/' :: stored_filename (uuid4hex r) name) content fs) := by
        simp [upload_file, ha, hm]
      rw [hres]
      dsimp only
      refine ⟨rfl, ?_, ?_, ?_, read_saveFile_eq⟩
      · simp [uuid4hex]
      · rw [List.all_eq_true]
        intro c hc
        exact mem_uuid4hex_hex hc
      · unfold uuid4hex
        rw [List.get?_map]
        have h12 : (List.finRange 32).get? 12 = some ⟨12, by norm_num⟩ := by decide
        rw [h12]
        rfl
  · simp [upload_file, ha] at h

/-- C6 witness: ingesting `avatar.png` with PNG bytes yields the
`<token>_avatar.png` name and the byte-identical file. -/
theorem C6_amended_witness :
    (upload_file magicSniff (uuid4hex rZero) ("avatar.png".toList) pngBytes emptyFS).1.1 = true ∧
    ((upload_file magicSniff (uuid4hex rZero) ("avatar.png".toList) pngBytes emptyFS).1.2 =
       uuid4hex rZero ++ '_' :: secure_filename ("avatar.png".toList) ∧
     (uuid4hex rZero).length = 32 ∧
     (uuid4hex rZero).all isHexChar = true ∧
     (uuid4hex rZero).get? 12 = some '4' ∧
     FS.read (upload_file magicSniff (uuid4hex rZero) ("avatar.png".toList) pngBytes emptyFS).2
       (UPLOAD_DIR ++ '/' ::
         (upload_file magicSniff (uuid4hex rZero) ("avatar.png".toList) pngBytes emptyFS).1.2) =
       some pngBytes) :=
  ⟨by decide,
   C6_amended magicSniff rZero ("avatar.png".toList) pngBytes emptyFS (by decide)⟩

/-- C9: directory setup is idempotent and precedes every write — the
module-level `mkdir(parents=True, exist_ok=True)` runs at import time, before
any call; creating the already-existing directory changes nothing (no error),
the directory exists from then on, and two consecutive calls against an
initially missing directory both succeed, with the directory still present. -/
theorem C9_directory_setup (sniff : List Nat → String) (t1 t2 name : List Char)
    (content : List Nat) (fs : FS)
    (hd : UPLOAD_DIR ∉ fs.dirs)
    (ha : allowed_file name = true)
    (hm : sniff (content.take 1024) ∈ ALLOWED_MIME_TYPES) :
    moduleInit (moduleInit fs) = moduleInit fs ∧
    UPLOAD_DIR ∈ (moduleInit fs).dirs ∧
    (upload_file sniff t1 name content (moduleInit fs)).1.1 = true ∧
    (upload_file sniff t2 name content
        ((upload_file sniff t1 name content (moduleInit fs)).2)).1.1 = true ∧
    UPLOAD_DIR ∈ ((upload_file sniff t2 name content
        ((upload_file sniff t1 name content (moduleInit fs)).2)).2).dirs := by
  have hmem : UPLOAD_DIR ∈ (moduleInit fs).dirs := by
    simp [moduleInit, mkdirExistOk, hd]
  refine ⟨?_, hmem, ?_, ?_, ?_⟩
  · simp [moduleInit, mkdirExistOk, hd]
  · simp [upload_file, ha, hm]
  · simp [upload_file, ha, hm]
  · simp [upload_file, ha, hm, saveFile]
    exact hmem

/-- C9 witness: two consecutive successful uploads starting from an empty
filesystem, with idempotent directory creation. -/
theorem C9_directory_setup_witness :
    (UPLOAD_DIR ∉ emptyFS.dirs ∧ allowed_file ("a.png".toList) = true ∧
     magicSniff (pngBytes.take 1024) ∈ ALLOWED_MIME_TYPES) ∧
    (moduleInit (moduleInit emptyFS) = moduleInit emptyFS ∧
     UPLOAD_DIR ∈ (moduleInit emptyFS).dirs ∧
     (upload_file magicSniff tok0 ("a.png".toList) pngBytes (moduleInit emptyFS)).1.1 = true ∧
     (upload_file magicSniff tok1 ("a.png".toList) pngBytes
         ((upload_file magicSniff tok0 ("a.png".toList) pngBytes (moduleInit emptyFS)).2)).1.1 = true ∧
     UPLOAD_DIR ∈ ((upload_file magicSniff tok1 ("a.png".toList) pngBytes
         ((upload_file magicSniff tok0 ("a.png".toList) pngBytes (moduleInit emptyFS)).2)).2).dirs) :=
  ⟨⟨by decide, by decide, by decide⟩,
   C9_directory_setup magicSniff tok0 tok1 ("a.png".toList) pngBytes emptyFS
     (by decide) (by decide) (by decide)⟩

/-- C10 counterexample: the two implementations are not equivalent — on a
`.png`-named text payload `upload_file` rejects while `verify_and_save_avatar`
accepts, and even on a genuine PNG their success return values differ (bare
stored filename vs full path). -/
theorem C10_counterexample :
    (upload_file magicSniff tok0 ("a.png".toList) textBytes emptyFS).1.1 = false ∧
    (verify_and_save_avatar tok0 ("a.png".toList) textBytes emptyFS).1.1 = true ∧
    (upload_file magicSniff tok0 ("b.png".toList) pngBytes emptyFS).1.1 = true ∧
    (verify_and_save_avatar tok0 ("b.png".toList) pngBytes emptyFS).1.1 = true ∧
    (verify_and_save_avatar tok0 ("b.png".toList) pngBytes emptyFS).1.2 ≠
      (upload_file magicSniff tok0 ("b.png".toList) pngBytes emptyFS).1.2 := by
  decide

/-- C10 (amended): when the payload's sniffed type is an allowed image the two
implementations agree on the accept/reject decision and produce the same
resulting filesystem (same stored file, same bytes); on success
`verify_and_save_avatar` returns the full path `UPLOAD_DIR/<name>` where
`upload_file` returns the bare stored name.  When the sniffed type is not
allowed the decisions diverge. -/
theorem C10_amended (t name : List Char) (content : List Nat) (fs : FS)
    (hm : magicSniff (content.take 1024) ∈ ALLOWED_MIME_TYPES) :
    (upload_file magicSniff t name content fs).1.1 =
      (verify_and_save_avatar t name content fs).1.1 ∧
    (upload_file magicSniff t name content fs).2 =
      (verify_and_save_avatar t name content fs).2 ∧
    ((upload_file magicSniff t name content fs).1.1 = true →
      (verify_and_save_avatar t name content fs).1.2 =
        UPLOAD_DIR ++ '/' :: (upload_file magicSniff t name content fs).1.2) := by
  by_cases ha : allowed_file name
  · simp [upload_file, verify_and_save_avatar, ha, hm]
  · simp [upload_file, verify_and_save_avatar, ha]

/-- C10 witness: on a genuine PNG both implementations accept, write the same
filesystem state, and the Workshop5 return value is the full path of the
Workshop3/4 bare name. -/
theorem C10_amended_witness :
    (upload_file magicSniff tok0 ("b.png".toList) pngBytes emptyFS).1.1 =
      (verify_and_save_avatar tok0 ("b.png".toList) pngBytes emptyFS).1.1 ∧
    (upload_file magicSniff tok0 ("b.png".toList) pngBytes emptyFS).2 =
      (verify_and_save_avatar tok0 ("b.png".toList) pngBytes emptyFS).2 ∧
    (verify_and_save_avatar tok0 ("b.png".toList) pngBytes emptyFS).1.2 =
      UPLOAD_DIR ++ '/' :: (upload_file magicSniff tok0 ("b.png".toList) pngBytes emptyFS).1.2 :=
  ⟨(C10_amended tok0 ("b.png".toList) pngBytes emptyFS (by decide)).1,
   (C10_amended tok0 ("b.png".toList) pngBytes emptyFS (by decide)).2.1,
   (C10_amended tok0 ("b.png".toList) pngBytes emptyFS (by decide)).2.2 (by decide)⟩
